import Mathlib

/-!
Verification of the keyutils object layer (`src/api.rs`).

The development shallowly embeds the parts of the source the claims are
about: the error-mapping helpers (`check_call`, `check_call_ret`), the
description-record decoder (`Description::parse`), the size bookkeeping of
the two-call buffer-query pattern (`Keyring::description_raw`, `Key::read`,
`security`, `compute_dh`, `Keyring::read`), the read/partition algorithm of
`Keyring::read`, the `KeyManager` one-shot resolution protocol, and the
ownership operations `chown`/`chgrp`.

Raw kernel call results are modelled as the integers the calls return,
together with the thread's error code at that moment; byte buffers as lists;
machine-integer casts (`as usize` on an `i64`) as explicit reduction
modulo 2 ^ 64.
-/

namespace Keyutils

/-! ### Error mapping (src/api.rs, check_call / check_call_ret)

`res` is the raw `c_long` returned by a kernel call and `err` the calling
thread's current system error code (`errno::errno()`). -/

/-- Embeds `check_call`: `-1` maps to `Err(errno)`, anything else to
`Ok(value)` with the caller-supplied substitute value. -/
def check_call {α : Type} (res : Int) (err : Int) (value : α) : Except Int α :=
  if res = -1 then .error err else .ok value

/-- Embeds `check_call_ret`: `-1` maps to `Err(errno)`, anything else to
`Ok(res)`, the raw value itself. -/
def check_call_ret (res : Int) (err : Int) : Except Int Int :=
  if res = -1 then .error err else .ok res

/-! ### Description record decoding (src/api.rs, Description / Description::parse) -/

/-- Embeds the `Description` struct: metadata about a key or keyring.
`uid`/`gid`/`perms` are `u32` values (`libc::uid_t`, `libc::gid_t`,
`KeyPermissions`), kept as `Nat` with the parsers below enforcing the
`< 2 ^ 32` bound exactly as Rust's `parse`/`from_str_radix` do. -/
structure Description where
  type_ : String
  uid : Nat
  gid : Nat
  perms : Nat
  description : String
deriving Repr, DecidableEq

/-- A decimal digit's value, as accepted by Rust's `u32::from_str`. -/
def decDigit (c : Char) : Option Nat :=
  if '0' ≤ c ∧ c ≤ '9' then some (c.toNat - 48) else none

/-- A hexadecimal digit's value, as accepted by `u32::from_str_radix(_, 16)`. -/
def hexDigit (c : Char) : Option Nat :=
  if '0' ≤ c ∧ c ≤ '9' then some (c.toNat - 48)
  else if 'a' ≤ c ∧ c ≤ 'f' then some (c.toNat - 87)
  else if 'A' ≤ c ∧ c ≤ 'F' then some (c.toNat - 55)
  else none

/-- Digit-by-digit accumulation with the `u32` overflow check: Rust's
integer `from_str`/`from_str_radix` fail (rather than wrap) on overflow. -/
def parseDigits (digit : Char → Option Nat) (radix : Nat) : List Char → Nat → Option Nat
  | [], acc => some acc
  | c :: rest, acc =>
    match digit c with
    | none => none
    | some d =>
      if acc * radix + d < 2 ^ 32 then parseDigits digit radix rest (acc * radix + d)
      else none

/-- Embeds `str::parse::<u32>` (so also `uid_t`/`gid_t` parsing): an optional
leading `+`, then at least one decimal digit, value below `2 ^ 32`. -/
def parseU32 (s : String) : Option Nat :=
  match s.data with
  | [] => none
  | '+' :: [] => none
  | '+' :: rest => parseDigits decDigit 10 rest 0
  | l => parseDigits decDigit 10 l 0

/-- Embeds `u32::from_str_radix(s, 16)` (used for `KeyPermissions`). -/
def parseHexU32 (s : String) : Option Nat :=
  match s.data with
  | [] => none
  | '+' :: [] => none
  | '+' :: rest => parseDigits hexDigit 16 rest 0
  | l => parseDigits hexDigit 16 l 0

/-- Splitting a character list on `;`, accumulating the current piece in
reverse. Embeds Rust's `str::split(';')`, which yields one (possibly empty)
piece per `;`-separated segment and `[""]` on the empty string. -/
def splitSemiAux : List Char → List Char → List String
  | [], acc => [String.mk acc.reverse]
  | c :: rest, acc =>
    if c = ';' then String.mk acc.reverse :: splitSemiAux rest []
    else splitSemiAux rest (c :: acc)

/-- `desc.split(';').collect::<Vec<_>>()` from `Description::parse`. -/
def splitSemi (s : String) : List String :=
  splitSemiAux s.data []

/-- Outcome of `Description::parse`. `decodeFailure` is the `None` return
(fewer than five fields); `aborted` is the `unwrap()` panic on an
unparsable numeric subfield. -/
inductive ParseResult where
  | parsed (d : Description)
  | decodeFailure
  | aborted
deriving Repr, DecidableEq

/-- The body of `Description::parse` after the split+reverse: fewer than
five pieces returns `None`; otherwise `pieces[3]`/`pieces[2]` are parsed as
decimal `u32`, `pieces[1]` as hexadecimal `u32`, each with `unwrap()`
(modelled as `aborted` on failure), and `pieces[4]`/`pieces[0]` are taken
verbatim as type and description. The upstream-report `println!` on more
than five fields has no effect on the result and is elided. -/
def parsePieces (pieces : List String) : ParseResult :=
  if pieces.length < 5 then .decodeFailure
  else
    match parseU32 (pieces.getD 3 ""), parseU32 (pieces.getD 2 ""),
          parseHexU32 (pieces.getD 1 "") with
    | some uid, some gid, some perms =>
      .parsed ⟨pieces.getD 4 "", uid, gid, perms, pieces.getD 0 ""⟩
    | _, _, _ => .aborted

/-- Embeds `Description::parse`: split on `;`, reverse so the known fields
sit at fixed positions from the (new) front, then decode. -/
def Description.parse (desc : String) : ParseResult :=
  parsePieces (splitSemi desc).reverse

/-! ### Two-call buffer-query size bookkeeping (src/api.rs)

The probing call returns `sz`, the filling call `actual_sz`, both `c_long`.
The source converts them with `as usize`; on an `i64` that is reduction
modulo `2 ^ 64`. -/

/-- `i as usize` on a `c_long` value. -/
def intAsUsize (i : Int) : Nat :=
  (i % (2 : Int) ^ 64).toNat

/-- Buffer capacity allocated between the two calls:
`Vec::with_capacity(sz as usize)` (`description_raw`, `Key::read`,
`security`, `compute_dh`). -/
def bufCapacity (sz : Int) : Nat :=
  intAsUsize sz

/-- The length claimed after the second call in `Key::read`, `security`
and `compute_dh`: `set_len(actual_sz as usize)`. -/
def readSetLen (actual_sz : Int) : Nat :=
  intAsUsize actual_sz

/-- The length claimed after the second call in `description_raw`:
`set_len((actual_sz - 1) as usize)`, trimming the trailing terminator. -/
def describeSetLen (actual_sz : Int) : Nat :=
  intAsUsize (actual_sz - 1)

/-- `Vec::set_len(n)`'s safety contract: the new length may not exceed the
vector's capacity (and the bytes up to `n` must have been written; the
kernel writes at most the passed buffer length, here the capacity). -/
def setLenSafe (capacity newLen : Nat) : Prop :=
  newLen ≤ capacity

instance (capacity newLen : Nat) : Decidable (setLenSafe capacity newLen) := by
  unfold setLenSafe; infer_instance

/-! ### Keyring::read (src/api.rs, lines 223-241) -/

/-- Outcome of an operation that can return `Ok`, return `Err`, or abort
via an internal `unwrap()` panic. -/
inductive CallRes (α : Type) where
  | ok (a : α)
  | err (e : Int)
  | aborted
deriving Repr, DecidableEq

/-- Whether a `CallRes` is the `Err` case. -/
def CallRes.isErr {α : Type} : CallRes α → Bool
  | .err _ => true
  | _ => false

/-- The closure `Keyring::read` partitions with:
`key.description().unwrap().type_ == "keyring"`. `descOf` is the result of
`key.description()` for each child serial; on an `Err` child the closure's
`unwrap()` aborts, which `keyring_read` below accounts for separately. -/
def childIsKeyring (descOf : Int → Except Int Description) (id : Int) : Bool :=
  match descOf id with
  | .ok d => d.type_ == "keyring"
  | .error _ => false

/-- Whether `key.description()` succeeds for a child serial. -/
def childLookupOk (descOf : Int → Except Int Description) (id : Int) : Bool :=
  match descOf id with
  | .ok _ => true
  | .error _ => false

/-- Embeds `Keyring::read`. `res1`/`e1` are the probing `keyctl_read`'s raw
result and errno, `res2`/`e2` the filling call's; `children` is the serial
list the kernel wrote (the buffer truncated to `actual_sz` serials); and
`descOf` gives each child's `description()` result. Each raw result goes
through `check_call_ret`; then the child handles are partitioned by
`childIsKeyring`, where any failed lookup aborts through the closure's
`unwrap()`. The returned pair is `(non-keyring keys, keyrings)`, matching
`Ok((keys.1, keys.0 ...))` in the source. -/
def keyring_read (res1 e1 res2 e2 : Int) (children : List Int)
    (descOf : Int → Except Int Description) : CallRes (List Int × List Int) :=
  match check_call_ret res1 e1 with
  | .error e => .err e
  | .ok _ =>
    match check_call_ret res2 e2 with
    | .error e => .err e
    | .ok _ =>
      if children.all (childLookupOk descOf) then
        .ok ((children.partition (childIsKeyring descOf)).2,
             (children.partition (childIsKeyring descOf)).1)
      else
        .aborted

/-! ### KeyManager (src/api.rs, lines 626-672) -/

/-- Embeds the `KeyManager` struct: it wraps exactly one key identity. -/
structure KeyManager where
  key : Int
deriving Repr, DecidableEq

/-- The raw kernel call a resolving `KeyManager` method issues.
`instantiate` issues `keyctl_instantiate`, `reject` issues `keyctl_reject`
with the caller's error number, `negate` issues `keyctl_negate`. -/
inductive ResolveCall where
  | instantiate (key : Int) (payload : List Nat) (keyring : Int)
  | reject (key : Int) (timeout : Nat) (error : Nat) (keyring : Int)
  | negate (key : Int) (timeout : Nat) (keyring : Int)
deriving Repr, DecidableEq

/-- Linux `ENOKEY` ("Required key not available"). -/
def ENOKEY : Nat := 126

/-- Embeds `KeyManager::reject`'s marshalling: it issues
`keyctl_reject(self.key.id, timeout, errval, keyring.id)`. -/
def KeyManager.rejectCall (m : KeyManager) (keyring : Int) (timeout : Nat)
    (error : Nat) : ResolveCall :=
  .reject m.key timeout error keyring

/-- Embeds `KeyManager::negate`'s marshalling: it issues
`keyctl_negate(self.key.id, timeout, keyring.id)`. -/
def KeyManager.negateCall (m : KeyManager) (keyring : Int) (timeout : Nat) :
    ResolveCall :=
  .negate m.key timeout keyring

/-- The kernel-side effect of a resolving call. -/
inductive KernelEffect where
  | supply (key : Int) (payload : List Nat) (keyring : Int)
  | deny (key : Int) (timeout : Nat) (error : Nat) (keyring : Int)
deriving Repr, DecidableEq

/-- Modelled from the spec: the meaning the kernel gives each resolving
call. The raw `keyctl_reject`/`keyctl_negate` syscalls live outside
`src/`; per the spec's external-interface section and its description of
`negate` as "convenience for `reject` with a fixed 'no such key' error
code", `keyctl_negate` denies the request with error `ENOKEY`, exactly as
`keyctl_reject` with that error does. -/
def ResolveCall.kernelSem : ResolveCall → KernelEffect
  | .instantiate k p r => .supply k p r
  | .reject k t e r => .deny k t e r
  | .negate k t r => .deny k t ENOKEY r

/-- A `KeyManager`'s lifecycle state. `authoritative` is a live manager
(the Rust value exists and has not been moved out of); `resolved` is the
consumed value after a resolving method took `self` by value. Rust's move
semantics are embedded as this explicit state: invoking
`instantiate`/`reject`/`negate` requires the `authoritative` state and
leaves the manager `resolved`. -/
inductive ManagerPhase where
  | authoritative (key : Int)
  | resolved
deriving Repr, DecidableEq

/-- A resolving method invocation a client program may attempt. -/
inductive ResolveAction where
  | instantiateAct (keyring : Int) (payload : List Nat)
  | rejectAct (keyring : Int) (timeout : Nat) (error : Nat)
  | negateAct (keyring : Int) (timeout : Nat)
deriving Repr, DecidableEq

/-- One resolving invocation on a manager. Each of
`instantiate`/`reject`/`negate` takes `self` by value, so it can only be
called on a live (`authoritative`) manager, issues its kernel call, and
consumes the manager (`resolved`); on a consumed manager no call is
possible (`none`): the Rust compiler rejects any use after the move. -/
def resolveStep : ManagerPhase → ResolveAction → Option (ResolveCall × ManagerPhase)
  | .authoritative k, .instantiateAct keyring payload =>
    some (.instantiate k payload keyring, .resolved)
  | .authoritative k, .rejectAct keyring timeout error =>
    some (.reject k timeout error keyring, .resolved)
  | .authoritative k, .negateAct keyring timeout =>
    some (.negate k timeout keyring, .resolved)
  | .resolved, _ => none

/-- Runs a whole program's worth of attempted resolving invocations against
one manager, collecting the kernel calls actually issued. Attempts on a
consumed manager issue nothing. -/
def managerRun : ManagerPhase → List ResolveAction → List ResolveCall
  | _, [] => []
  | st, a :: rest =>
    match resolveStep st a with
    | none => managerRun st rest
    | some (c, st2) => c :: managerRun st2 rest

/-! ### chown / chgrp (src/api.rs, lines 374-384) -/

/-- `!0` at type `libc::uid_t` / `libc::gid_t` (`u32`): all ones. -/
def sentinel32 : Nat := 2 ^ 32 - 1

/-- Embeds `Keyring::chown`'s argument marshalling: it issues
`keyctl_chown(self.id, uid, !0)`, so the pair of (uid, gid) arguments is
`(uid, !0)`. -/
def chownArgs (uid : Nat) : Nat × Nat :=
  (uid, sentinel32)

/-- Embeds `Keyring::chgrp`'s argument marshalling: it issues
`keyctl_chown(self.id, !0, gid)`. -/
def chgrpArgs (gid : Nat) : Nat × Nat :=
  (sentinel32, gid)

/-- A key's or keyring's ownership fields. -/
structure OwnerPair where
  uid : Nat
  gid : Nat
deriving Repr, DecidableEq

/-- Modelled from the spec: the kernel's `chown` call treats an all-ones
argument as "leave this ownership field unchanged" and otherwise installs
the argument as the new owner. The raw `keyctl_chown` syscall lives
outside `src/`. -/
def kernelChown (cur : OwnerPair) (args : Nat × Nat) : OwnerPair :=
  ⟨if args.1 = sentinel32 then cur.uid else args.1,
   if args.2 = sentinel32 then cur.gid else args.2⟩

/-! ### Concrete instances used by witnesses and counterexamples -/

/-- A child-description oracle where every lookup succeeds: serial 10 is a
keyring, everything else a user key. -/
def descOfAllOk : Int → Except Int Description := fun id =>
  if id = 10 then .ok ⟨"keyring", 0, 0, 0x3f3f3f3f, "kr"⟩
  else .ok ⟨"user", 0, 0, 0x3f010000, "k"⟩

/-- A child-description oracle where serial 20's lookup fails with
`EACCES`-style error 13. -/
def descOfOneBad : Int → Except Int Description := fun id =>
  if id = 20 then .error 13 else .ok ⟨"user", 0, 0, 0x3f010000, "k"⟩

/-! ## Helper lemmas -/

/-- `parsePieces` on an explicitly five-or-more-element piece list whose
numeric pieces parse. -/
theorem parsePieces_cons (ds ps gs us t : String) (r : List String) (u g p : Nat)
    (hu : parseU32 us = some u) (hg : parseU32 gs = some g)
    (hp : parseHexU32 ps = some p) :
    parsePieces (ds :: ps :: gs :: us :: t :: r) = .parsed ⟨t, u, g, p, ds⟩ := by
  simp [parsePieces, hu, hg, hp]

/-- Reversing pieces of the form `extras ++ [t, us, gs, ps, ds]` puts the
five known fields at the front. -/
theorem reverse_extras (extras : List String) (t us gs ps ds : String) :
    (extras ++ [t, us, gs, ps, ds]).reverse =
      ds :: ps :: gs :: us :: t :: extras.reverse := by
  simp

/-- No resolving call is ever issued from a consumed manager. -/
theorem managerRun_resolved (acts : List ResolveAction) :
    managerRun .resolved acts = [] := by
  induction acts with
  | nil => rfl
  | cons a rest ih => cases a <;> simp [managerRun, resolveStep, ih]

/-! ## Claim theorems -/

/-- Claim C1: the error-mapping helpers return a failure carrying the
thread's current error code exactly when the raw value is the sentinel
`-1`; otherwise `check_call_ret` succeeds with the raw value itself and
`check_call` with the caller-supplied substitute value. -/
theorem check_call_sentinel {α : Type} (res err : Int) (v : α) :
    (res = -1 →
      check_call res err v = .error err ∧ check_call_ret res err = .error err) ∧
    (res ≠ -1 →
      check_call res err v = .ok v ∧ check_call_ret res err = .ok res) := by
  constructor
  · intro h
    simp [check_call, check_call_ret, h]
  · intro h
    simp [check_call, check_call_ret, h]

/-- Witness for C1 at the concrete raw values `-1` and `5`. -/
theorem check_call_sentinel_witness :
    check_call (-1) 13 (7 : Nat) = .error 13 ∧ check_call_ret 5 13 = .ok 5 :=
  ⟨((check_call_sentinel (-1) 13 (7 : Nat)).1 rfl).1,
   ((check_call_sentinel 5 13 (7 : Nat)).2 (by decide)).2⟩

/-- Claim C2: a record whose field decomposition ends in
`[type, uid, gid, perm_hex, description]` with parsable numeric subfields
decodes to exactly those five trailing fields — with no leading extra
fields (`extras = []`, the exactly-five case) or with any number of extra
unknown leading fields (the forward-compatibility case) — and a record
with fewer than five fields yields the decode failure `None`. -/
theorem description_parse_roundtrip :
    (∀ (desc : String) (extras : List String) (t us gs ps ds : String) (u g p : Nat),
      splitSemi desc = extras ++ [t, us, gs, ps, ds] →
      parseU32 us = some u → parseU32 gs = some g → parseHexU32 ps = some p →
      Description.parse desc = .parsed ⟨t, u, g, p, ds⟩) ∧
    (∀ desc : String, (splitSemi desc).length < 5 →
      Description.parse desc = .decodeFailure) := by
  constructor
  · intro desc extras t us gs ps ds u g p hsplit hu hg hp
    unfold Description.parse
    rw [hsplit, reverse_extras]
    exact parsePieces_cons ds ps gs us t extras.reverse u g p hu hg hp
  · intro desc h
    unfold Description.parse parsePieces
    rw [if_pos]
    simpa using h

/-- Witness for C2 on concrete five-field, six-field and four-field
records. -/
theorem description_parse_roundtrip_witness :
    Description.parse "user;1000;100;3f;mydesc" =
      .parsed ⟨"user", 1000, 100, 63, "mydesc"⟩ ∧
    Description.parse "extra;user;1000;100;3f;mydesc" =
      .parsed ⟨"user", 1000, 100, 63, "mydesc"⟩ ∧
    Description.parse "a;b;c;d" = .decodeFailure :=
  ⟨description_parse_roundtrip.1 "user;1000;100;3f;mydesc" [] "user" "1000"
      "100" "3f" "mydesc" 1000 100 63 (by decide) (by decide) (by decide) (by decide),
   description_parse_roundtrip.1 "extra;user;1000;100;3f;mydesc" ["extra"] "user"
      "1000" "100" "3f" "mydesc" 1000 100 63 (by decide) (by decide) (by decide)
      (by decide),
   description_parse_roundtrip.2 "a;b;c;d" (by decide)⟩

/-- Claim C3 counterexample: on `"user;x;0;0;d"` — five fields, uid field
`"x"` unparsable — `Description::parse` aborts through `unwrap()` instead
of returning the decode failure the claim asserts. -/
theorem description_parse_numeric_cex :
    Description.parse "user;x;0;0;d" = .aborted ∧
    Description.parse "user;x;0;0;d" ≠ .decodeFailure := by
  decide

/-- Claim C3 as amended: for every input with at least five fields in
which the uid, gid, or hexadecimal permission subfield does not parse,
`Description::parse` aborts (the `unwrap()` panic) rather than returning
a decode failure. -/
theorem description_parse_numeric_aborts (desc : String) (extras : List String)
    (t us gs ps ds : String)
    (hsplit : splitSemi desc = extras ++ [t, us, gs, ps, ds])
    (hbad : parseU32 us = none ∨ parseU32 gs = none ∨ parseHexU32 ps = none) :
    Description.parse desc = .aborted := by
  unfold Description.parse
  rw [hsplit, reverse_extras]
  cases hu : parseU32 us with
  | none => simp [parsePieces, hu]
  | some u =>
    cases hg : parseU32 gs with
    | none => simp [parsePieces, hu, hg]
    | some g =>
      cases hp : parseHexU32 ps with
      | none => simp [parsePieces, hu, hg, hp]
      | some p => simp [hu, hg, hp] at hbad

/-- Witness for the amended C3 at the concrete record `"user;x;0;0;d"`. -/
theorem description_parse_numeric_aborts_witness :
    Description.parse "user;x;0;0;d" = .aborted :=
  description_parse_numeric_aborts "user;x;0;0;d" [] "user" "x" "0" "0" "d"
    (by decide) (Or.inl (by decide))

/-- Claim C4 (code bug, evaluated): when the filling `keyctl_describe`
call reports `actual_sz = 0`, `description_raw` computes the `set_len`
argument `(0 - 1) as usize = 2 ^ 64 - 1`, far beyond the capacity
allocated from the probing call's `sz = 16`; and when the filling
`keyctl_read` call reports `actual_sz = 32 > sz = 16`, `Key::read` sets a
length beyond its capacity. Both violate `Vec::set_len`'s contract and
read past what was written. -/
theorem buffer_query_size_bug :
    describeSetLen 0 = 2 ^ 64 - 1 ∧
    ¬ setLenSafe (bufCapacity 16) (describeSetLen 0) ∧
    ¬ setLenSafe (bufCapacity 16) (readSetLen 32) := by
  decide

/-- Claim C5: for every positive `actual_sz` reported by the filling
describe call, the logical string length `description_raw` produces is
`actual_sz - 1`: the trailing terminator counted by the kernel-reported
describe size is trimmed. -/
theorem describe_trims_terminator (actual_sz : Int)
    (h1 : 1 ≤ actual_sz) (h2 : actual_sz ≤ 2 ^ 63) :
    (describeSetLen actual_sz : Int) = actual_sz - 1 := by
  unfold describeSetLen intAsUsize
  have h3 : (0 : Int) ≤ actual_sz - 1 := by omega
  rw [Int.emod_eq_of_lt h3 (by omega)]
  exact Int.toNat_of_nonneg h3

/-- Witness for C5 at `actual_sz = 6`. -/
theorem describe_trims_terminator_witness :
    (describeSetLen 6 : Int) = 6 - 1 :=
  describe_trims_terminator 6 (by decide) (by decide)

/-- Claim C6: a successful `Keyring::read` partitions exactly the
enumerated children: a serial is in the keyrings collection iff it is an
enumerated child whose description type tag is `"keyring"`, in the keys
collection iff it is an enumerated child whose tag is not `"keyring"`,
and never in both; in particular membership in either collection implies
membership in the enumerated children. -/
theorem keyring_read_partition (res1 e1 res2 e2 : Int)
    (children keys keyrings : List Int)
    (descOf : Int → Except Int Description) (id : Int)
    (h : keyring_read res1 e1 res2 e2 children descOf = .ok (keys, keyrings)) :
    (id ∈ keyrings ↔ id ∈ children ∧ childIsKeyring descOf id = true) ∧
    (id ∈ keys ↔ id ∈ children ∧ childIsKeyring descOf id = false) ∧
    ¬ (id ∈ keys ∧ id ∈ keyrings) := by
  unfold keyring_read at h
  split at h
  · exact absurd h (by simp)
  · split at h
    · exact absurd h (by simp)
    · split at h
      · rw [List.partition_eq_filter_filter, CallRes.ok.injEq, Prod.mk.injEq] at h
        obtain ⟨hkeys, hkeyrings⟩ := h
        subst hkeys
        subst hkeyrings
        refine ⟨by simp [List.mem_filter], by simp [List.mem_filter], ?_⟩
        rintro ⟨hk, hr⟩
        rw [List.mem_filter] at hk hr
        simp only [Function.comp] at hk
        rw [hr.2] at hk
        simp at hk
      · exact absurd h (by simp)

/-- Witness for C6 on a concrete two-child keyring: child 10 is a
keyring, child 20 is not. -/
theorem keyring_read_partition_witness :
    ((10 : Int) ∈ ([10] : List Int) ↔
      (10 : Int) ∈ ([10, 20] : List Int) ∧ childIsKeyring descOfAllOk 10 = true) ∧
    ((10 : Int) ∈ ([20] : List Int) ↔
      (10 : Int) ∈ ([10, 20] : List Int) ∧ childIsKeyring descOfAllOk 10 = false) ∧
    ¬ ((10 : Int) ∈ ([20] : List Int) ∧ (10 : Int) ∈ ([10] : List Int)) :=
  keyring_read_partition 8 0 8 0 [10, 20] [20] [10] descOfAllOk 10 (by decide)

/-- Claim C7 counterexample: with both kernel calls succeeding and child
20's description lookup failing, `Keyring::read` aborts through the
closure's `unwrap()`; it does not return an error result, contrary to the
claim. -/
theorem keyring_read_child_failure_cex :
    keyring_read 8 0 8 0 [10, 20] descOfOneBad = .aborted ∧
    (keyring_read 8 0 8 0 [10, 20] descOfOneBad).isErr = false := by
  decide

/-- Claim C7 as amended: whenever any enumerated child's description
lookup fails, the whole `Keyring::read` aborts (panics through the
`unwrap()` in the partition closure) rather than returning a partial
partition; no partial success is ever returned. -/
theorem keyring_read_child_failure_aborts (res1 e1 res2 e2 : Int)
    (children : List Int) (descOf : Int → Except Int Description) (c e : Int)
    (h1 : res1 ≠ -1) (h2 : res2 ≠ -1) (hc : c ∈ children)
    (hf : descOf c = .error e) :
    keyring_read res1 e1 res2 e2 children descOf = .aborted := by
  have hall : children.all (childLookupOk descOf) = false := by
    rw [Bool.eq_false_iff]
    intro hall
    have := List.all_eq_true.mp hall c hc
    simp [childLookupOk, hf] at this
  simp [keyring_read, check_call_ret, h1, h2, hall]

/-- Witness for the amended C7 on the concrete two-child keyring where
child 20's lookup fails. -/
theorem keyring_read_child_failure_aborts_witness :
    keyring_read 8 0 8 0 [10, 20] descOfOneBad = .aborted :=
  keyring_read_child_failure_aborts 8 0 8 0 [10, 20] descOfOneBad 20 13
    (by decide) (by decide) (by decide) rfl

/-- Claim C8: for every manager, keyring and timeout, the kernel effect of
the call `negate` issues equals the kernel effect of the call `reject`
issues with the error code fixed to `ENOKEY`: `negate` is a convenience
equivalent of that specific `reject` call. -/
theorem negate_is_reject_enokey (m : KeyManager) (keyring : Int) (timeout : Nat) :
    (m.negateCall keyring timeout).kernelSem =
      (m.rejectCall keyring timeout ENOKEY).kernelSem := rfl

/-- Claim C9: a `KeyManager` is single-use. No resolving invocation is
possible on a consumed manager (the Authoritative-to-Resolved transition
is one-way with no re-entry), and any sequence of attempted resolving
invocations against a manager fresh from `manage()` issues at most one
kernel resolving call. -/
theorem key_manager_single_use (k : Int) (acts : List ResolveAction)
    (a : ResolveAction) :
    resolveStep .resolved a = none ∧
    (managerRun (.authoritative k) acts).length ≤ 1 := by
  constructor
  · cases a <;> rfl
  · cases acts with
    | nil => simp [managerRun]
    | cons a rest =>
      cases a <;> simp [managerRun, resolveStep, managerRun_resolved]

/-- Claim C10: `chown(uid)` passes the all-ones sentinel as the group
argument so the kernel leaves the group owner unchanged, and `chgrp(gid)`
passes the sentinel as the user argument so the user owner is unchanged;
each mutates exactly its own ownership field. -/
theorem chown_chgrp_frame (cur : OwnerPair) (uid gid : Nat)
    (hu : uid ≠ sentinel32) (hg : gid ≠ sentinel32) :
    (chownArgs uid).2 = sentinel32 ∧
    kernelChown cur (chownArgs uid) = ⟨uid, cur.gid⟩ ∧
    (chgrpArgs gid).1 = sentinel32 ∧
    kernelChown cur (chgrpArgs gid) = ⟨cur.uid, gid⟩ := by
  refine ⟨rfl, ?_, rfl, ?_⟩ <;> simp [kernelChown, chownArgs, chgrpArgs, hu, hg]

/-- Witness for C10 at owner `(1, 2)`, `uid = 1000`, `gid = 100`. -/
theorem chown_chgrp_frame_witness :
    (chownArgs 1000).2 = sentinel32 ∧
    kernelChown ⟨1, 2⟩ (chownArgs 1000) = ⟨1000, 2⟩ ∧
    (chgrpArgs 100).1 = sentinel32 ∧
    kernelChown ⟨1, 2⟩ (chgrpArgs 100) = ⟨1, 100⟩ :=
  chown_chgrp_frame ⟨1, 2⟩ 1000 100 (by decide) (by decide)

end Keyutils
